import Mathlib

/-!
Verification of the ProjectDuck example file service
(`src/example/code/example.py`).

The file embeds, as Lean definitions, the parts of the Python source that
the claims are about:

* `FileType` / `FileItem` — the enum and dataclass (lines 17-30);
* `format_file_size` — the size-formatting helper (lines 49-60), with the
  int-to-float conversion of `bytes_size /= 1024.0` raising `OverflowError`
  at CPython's threshold, the in-range float modelled as an exact rational
  and `%.1f` formatting modelled by `fmt1`;
* `get_directory` — listing a directory (lines 62-112): the session check,
  the query-parameter construction, `raise_for_status`, the `success` flag
  check and the item parsing loop (`parseItem` / `parseItems`);
* `get_file_content` — fetching a file (lines 114-129).

HTTP is modelled by passing an explicit `respond : Request → ...` function;
each operation also returns the list of requests it issued, so that
"performs no network call" is the statement that this list is empty.
Python exceptions are modelled by `Except PyError`.
-/

namespace ProjectDuck

/-- The `FileType` enum of the source: `FILE = "file"`, `DIRECTORY = "directory"`. -/
inductive FileType where
  | file
  | directory
deriving DecidableEq, Repr

/-- Errors raised by the Python code.  `runtimeError` is `RuntimeError` (the
spec's `StateError`), `transportError` models `aiohttp`'s `raise_for_status`
exception carrying the HTTP status (the spec's `TransportError`),
`valueError` is `ValueError` (used both for the spec's `ApiError` and for an
invalid `FileType` string), `keyError` is `KeyError` on a missing dict key,
and `overflowError` is `OverflowError`, raised by CPython when an `int` too
large for a binary64 float is converted by `bytes_size /= 1024.0`. -/
inductive PyError where
  | runtimeError : String → PyError
  | transportError : Nat → PyError
  | valueError : String → PyError
  | keyError : String → PyError
  | overflowError : String → PyError
deriving DecidableEq, Repr

/-- The `FileItem` dataclass (source lines 22-30).  `modified` holds the
string handed to `datetime.fromisoformat`, i.e. the `modified` payload value
after the `replace("Z", "+00:00")` normalization; the claims under
verification only compare such strings for equality, never two distinct
ISO strings denoting one instant. -/
structure FileItem where
  name : String
  path : String
  type : FileType
  size : Option Int := none
  modified : Option String := none
  extension : Option String := none
deriving DecidableEq, Repr

/-- One decoded JSON item of the directory payload (section 6 of the spec):
every key may be absent, `none` meaning the key is missing. -/
structure ItemData where
  name : Option String := none
  path : Option String := none
  type : Option String := none
  size : Option Int := none
  modified : Option String := none
  extension : Option String := none
deriving DecidableEq, Repr

/-- `FileType(s)`: the enum lookup of line 101.  An unknown string raises
`ValueError` (message abridged from Python's quoted form). -/
def FileType.ofString (s : String) : Except PyError FileType :=
  if s = "file" then .ok .file
  else if s = "directory" then .ok .directory
  else .error (.valueError (s ++ " is not a valid FileType"))

/-- Python `str.replace` for a one-character pattern: every occurrence of
`c` in the list is replaced by `new`, left to right. -/
def replaceCharList (c : Char) (new : List Char) : List Char → List Char
  | [] => []
  | x :: xs =>
      if x = c then new ++ replaceCharList c new xs
      else x :: replaceCharList c new xs

/-- `item_data["modified"].replace("Z", "+00:00")` (source lines 94-96). -/
def normalizeModified (s : String) : String :=
  ⟨replaceCharList 'Z' "+00:00".data s.data⟩

/-- Python round-half-to-even of `q * 10`, the integer of tenths printed by
the `"%.1f"` format specifier. -/
def pyRound1 (q : ℚ) : ℤ :=
  let t := q * 10
  let fl := ⌊t⌋
  if t - fl < 1/2 then fl
  else if t - fl > 1/2 then fl + 1
  else if fl % 2 = 0 then fl else fl + 1

/-- Python `f"{x:.1f}"` for the nonnegative values arising in
`format_file_size`. -/
def fmt1 (q : ℚ) : String :=
  let m := (pyRound1 q).toNat
  toString (m / 10) ++ "." ++ toString (m % 10)

/-- The unit list `sizes = ["B", "KB", "MB", "GB", "TB"]` of line 54. -/
def sizes : List String := ["B", "KB", "MB", "GB", "TB"]

/-- The `while bytes_size >= 1024 and i < len(sizes) - 1` loop of lines
56-58, entered after the one int-to-float conversion succeeded, with the
float value carried exactly as a rational (the rounding of subsequent float
divisions only perturbs the printed digits and guard boundaries, never the
`i < 4` bound on the unit index).  The guard forces `i < 4`, so 4 units of
fuel (from `i = 0`) never run out before the guard fails. -/
def sizeLoop : Nat → ℚ → Nat → ℚ × Nat
  | 0, q, i => (q, i)
  | fuel + 1, q, i =>
      if 1024 ≤ q ∧ i < 4 then sizeLoop fuel (q / 1024) (i + 1)
      else (q, i)

/-- The least natural number whose conversion to a binary64 float raises
`OverflowError` in CPython.  The conversion rounds half-to-even to 53
significant bits and fails when the rounded value reaches `2 ^ 1024`; the
largest finite double is `2 ^ 1024 - 2 ^ 971`, and every integer at or above
the midpoint `2 ^ 1024 - 2 ^ 970` rounds up to `2 ^ 1024`. -/
def floatOverflowBound : Nat := 2 ^ 1024 - 2 ^ 970

/-- `FileService.format_file_size` (source lines 49-60).  The first pass
through `bytes_size /= 1024.0` (line 57) converts the `int` operand to a
float; it is reached exactly when `bytes_size >= 1024`, and raises
`OverflowError` when the operand is at or above `floatOverflowBound`.
Later iterations divide an in-range float and cannot overflow, and the
`bytes_size == 0` return and the `bytes_size < 1024` fall-through never
convert a large `int`. -/
def format_file_size (bytes_size : Nat) : Except PyError String :=
  if bytes_size = 0 then .ok "0 B"
  else if 1024 ≤ bytes_size ∧ floatOverflowBound ≤ bytes_size then
    .error (.overflowError "int too large to convert to float")
  else
    let r := sizeLoop 4 (bytes_size : ℚ) 0
    .ok (fmt1 r.1 ++ " " ++ sizes.getD r.2 "")

/-- An HTTP request issued through the session: the URL and the query
parameters handed to `session.get(url, params=params)`. -/
structure Request where
  url : String
  params : List (String × String)
deriving DecidableEq, Repr

/-- The decoded JSON payload of the directory endpoint.  `success` is
`none` when the key is absent (Python `data.get("success")` then yields
`None`); likewise `error`.  `items` is `data["data"]["items"]`. -/
structure DirectoryPayload where
  success : Option Bool := none
  error : Option String := none
  items : List ItemData := []
deriving DecidableEq, Repr

/-- The decoded JSON payload of the file-content endpoint. -/
structure ContentPayload where
  success : Option Bool := none
  error : Option String := none
  content : String := ""
deriving DecidableEq, Repr

/-- An HTTP-level response: status code plus decoded JSON payload. -/
structure DirResponse where
  status : Nat
  payload : DirectoryPayload
deriving DecidableEq, Repr

/-- An HTTP-level response of the file-content endpoint. -/
structure ContentResponse where
  status : Nat
  payload : ContentPayload
deriving DecidableEq, Repr

/-- Python `str(x)` applied to `data.get("error")` in the f-string of
source line 129: `None` prints as `"None"`. -/
def pyStrOpt : Option String → String
  | some s => s
  | none => "None"

/-- Truthiness of `data.get("success")` (source lines 86 and 126): only
the JSON value `true` is truthy; `false` and a missing key are falsy. -/
def successTruthy : Option Bool → Bool
  | some b => b
  | none => false

/-- The loop body of source lines 90-106: build one `FileItem` from one
payload item.  `modified` is computed first (lines 92-96, with Python
truthiness: a missing key or empty string leaves it `None`); then the
`FileItem(...)` keyword arguments are evaluated left to right, so a
missing `name`, `path` or `type` key raises `KeyError` and an unknown
`type` string raises `ValueError`, while `size` and `extension` use
`.get` and simply stay absent. -/
def parseItem (it : ItemData) : Except PyError FileItem :=
  let modified : Option String :=
    match it.modified with
    | some s => if s = "" then none else some (normalizeModified s)
    | none => none
  match it.name with
  | none => .error (.keyError "name")
  | some name =>
    match it.path with
    | none => .error (.keyError "path")
    | some path =>
      match it.type with
      | none => .error (.keyError "type")
      | some tstr =>
        match FileType.ofString tstr with
        | .error e => .error e
        | .ok ty =>
            .ok { name := name, path := path, type := ty, size := it.size,
                  modified := modified, extension := it.extension }

/-- The `for item_data in data["data"]["items"]` loop of lines 89-106:
items are converted in order, the first exception aborting the loop. -/
def parseItems : List ItemData → Except PyError (List FileItem)
  | [] => .ok []
  | it :: rest => do
      let fi ← parseItem it
      let l ← parseItems rest
      .ok (fi :: l)

/-- `FileService.get_directory` (source lines 62-112).  `sessionOpen`
models `self.session` being set; `respond` models the transport.  The
first component collects every request issued through the session, the
second is the Python return value or the exception raised.  The
`except aiohttp.ClientError` handler (lines 110-112) only prints and
re-raises, so it does not change this value. -/
def get_directory (base_url : String) (sessionOpen : Bool) (path : String)
    (respond : Request → DirResponse) :
    List Request × Except PyError (List FileItem) :=
  if !sessionOpen then
    ([], .error (.runtimeError "Session not initialized. Use async context manager."))
  else
    let url := base_url ++ "/directory"
    let params := if path = "" then [] else [("path", path)]
    let req : Request := ⟨url, params⟩
    let resp := respond req
    ([req],
      if 400 ≤ resp.status then .error (.transportError resp.status)
      else if !successTruthy resp.payload.success then
        .error (.valueError ("API Error: " ++ resp.payload.error.getD "Unknown error"))
      else parseItems resp.payload.items)

/-- `FileService.get_file_content` (source lines 114-129). -/
def get_file_content (base_url : String) (sessionOpen : Bool) (file_path : String)
    (respond : Request → ContentResponse) :
    List Request × Except PyError String :=
  if !sessionOpen then
    ([], .error (.runtimeError "Session not initialized"))
  else
    let url := base_url ++ "/file/content"
    let params := [("path", file_path)]
    let req : Request := ⟨url, params⟩
    let resp := respond req
    ([req],
      if 400 ≤ resp.status then .error (.transportError resp.status)
      else if successTruthy resp.payload.success then .ok resp.payload.content
      else
        .error (.valueError ("Failed to get file content: " ++ pyStrOpt resp.payload.error)))

/-! ## Helper lemmas -/

/-- A successfully parsed item has its `size` and `extension` copied verbatim
from the payload and its `modified` given by the truthiness-guarded
normalization of lines 92-96. -/
lemma parseItem_ok_fields {it : ItemData} {fi : FileItem} (h : parseItem it = .ok fi) :
    fi.size = it.size ∧ fi.extension = it.extension ∧
      fi.modified = (match it.modified with
        | some s => if s = "" then none else some (normalizeModified s)
        | none => none) := by
  rcases it with ⟨name, path, ty, size, modified, ext⟩
  cases name <;> cases path <;> cases ty <;> simp [parseItem] at h ⊢
  split at h
  · cases h
  · cases h
    simp

/-- A successful run of the parsing loop relates payload items and produced
`FileItem`s pointwise, in order. -/
lemma parseItems_forall₂ : ∀ {items : List ItemData} {l : List FileItem},
    parseItems items = .ok l →
    List.Forall₂ (fun it fi => parseItem it = .ok fi) items l := by
  intro items
  induction items with
  | nil =>
    intro l h
    cases h
    exact .nil
  | cons it rest ih =>
    intro l h
    cases hp : parseItem it with
    | error e => rw [parseItems, hp] at h; cases h
    | ok fi =>
      cases hr : parseItems rest with
      | error e => rw [parseItems, hp, hr] at h; cases h
      | ok l2 =>
        rw [parseItems, hp, hr] at h
        cases h
        exact .cons hp (ih hr)

/-- An item with a missing `name`, `path` or `type` key, or with a `type`
string that is neither `"file"` nor `"directory"`, never parses. -/
lemma parseItem_bad {it : ItemData}
    (h : it.name = none ∨ it.path = none ∨ it.type = none ∨
      ∀ s, it.type = some s → s ≠ "file" ∧ s ≠ "directory") :
    ∀ fi, parseItem it ≠ .ok fi := by
  intro fi hfi
  rcases it with ⟨name, path, ty, size, modified, ext⟩
  simp only at h
  rcases h with h | h | h | h
  · subst h
    simp [parseItem] at hfi
  · subst h
    cases name <;> simp [parseItem] at hfi
  · subst h
    cases name <;> cases path <;> simp [parseItem] at hfi
  · cases name <;> cases path <;> cases ty <;> simp [parseItem] at hfi
    next s =>
      obtain ⟨h1, h2⟩ := h s rfl
      simp [FileType.ofString, h1, h2] at hfi

/-- If `get_directory` returns a list then the transport and `success`
checks passed and the list is precisely the output of the parsing loop. -/
lemma get_directory_ok {b path : String} {r : DirResponse} {l : List FileItem}
    (h : (get_directory b true path (fun _ => r)).2 = .ok l) :
    parseItems r.payload.items = .ok l := by
  simp [get_directory] at h
  split at h
  · cases h
  · split at h
    · cases h
    · exact h

/-- Left-to-right projection of `List.Forall₂`. -/
lemma forall₂_mem_left {α β : Type} {R : α → β → Prop} :
    ∀ {as : List α} {bs : List β}, List.Forall₂ R as bs → ∀ a ∈ as, ∃ b, R a b := by
  intro as bs h
  induction h with
  | nil => intro a ha; cases ha
  | cons hab _ ih =>
    intro a ha
    rcases List.mem_cons.mp ha with h1 | h1
    · exact ⟨_, h1 ▸ hab⟩
    · exact ih a h1

/-- Replacing every occurrence of `c` in a list ending in `c` appends the
replacement to the replaced prefix. -/
lemma replaceCharList_append_single (c : Char) (new : List Char) (l : List Char) :
    replaceCharList c new (l ++ [c]) = replaceCharList c new l ++ new := by
  induction l with
  | nil => simp [replaceCharList]
  | cons x xs ih => by_cases hx : x = c <;> simp [replaceCharList, hx, ih]

/-- The guard `i < 4` of the size loop keeps the unit index at most 4. -/
lemma sizeLoop_snd_le : ∀ (fuel : Nat) (q : ℚ) (i : Nat), i ≤ 4 → (sizeLoop fuel q i).2 ≤ 4 := by
  intro fuel
  induction fuel with
  | zero => intro q i h; exact h
  | succ f ih =>
    intro q i h
    rw [sizeLoop]
    split
    · next hc => exact ih _ _ hc.2
    · exact h

/-- Indexing `sizes` at a position at most 4 yields one of the five units. -/
lemma getD_sizes_mem {i : Nat} (h : i ≤ 4) : sizes.getD i "" ∈ sizes := by
  interval_cases i <;> simp [sizes]

/-! ## Claims -/

/-- Claim C1, counterexample: the claim says a `FileItem` built from a
payload item with `type: "directory"` has an absent `size` field even when
the payload carries a `size`.  In the code, `size=item_data.get("size")`
(line 102) runs unconditionally: a directory item with `size: 5` yields a
`FileItem` whose `size` is `some 5`, not `none`. -/
theorem directory_size_not_absent :
    (get_directory "http://localhost:3001/api" true "" (fun _ => ⟨200, ⟨some true, none,
      [⟨some "d", some "/d", some "directory", some 5, none, none⟩]⟩⟩)).2
      = .ok [⟨"d", "/d", .directory, some 5, none, none⟩]
    ∧ (FileItem.mk "d" "/d" .directory (some 5) none none).size ≠ none :=
  ⟨rfl, by decide⟩

/-- Claim C1, amended: for every payload item that `get_directory` turns
into a `FileItem`, the `size` field is copied verbatim from the payload
(present maps to present, absent to absent), for directory entries exactly
as for file entries — directory entries are not size-filtered. -/
theorem size_copied_from_payload (b path : String) (r : DirResponse) (l : List FileItem)
    (h : (get_directory b true path (fun _ => r)).2 = .ok l) :
    List.Forall₂ (fun it fi => fi.size = it.size) r.payload.items l := by
  refine List.Forall₂.imp ?_ (parseItems_forall₂ (get_directory_ok h))
  intro it fi hok
  exact (parseItem_ok_fields hok).1

/-- Witness for the amended C1 theorem at a concrete directory item that
carries `size: 5`. -/
theorem size_copied_from_payload_witness :
    List.Forall₂ (fun (it : ItemData) (fi : FileItem) => fi.size = it.size)
      [⟨some "d", some "/d", some "directory", some 5, none, none⟩]
      [⟨"d", "/d", .directory, some 5, none, none⟩] :=
  size_copied_from_payload "http://localhost:3001/api" ""
    ⟨200, ⟨some true, none, [⟨some "d", some "/d", some "directory", some 5, none, none⟩]⟩⟩
    [⟨"d", "/d", .directory, some 5, none, none⟩] rfl

/-- Claim C2, counterexample: the claim says the payload
`{"success": false, "error": "boom"}` yields an `ApiError` whose message is
`"boom"`.  The code raises `ValueError(f"API Error: {...}")` (line 87), so
the message is `"API Error: boom"`, which is not `"boom"`. -/
theorem api_error_message_not_bare :
    (get_directory "http://localhost:3001/api" true ""
        (fun _ => ⟨200, ⟨some false, some "boom", []⟩⟩)).2
      = .error (.valueError "API Error: boom")
    ∧ "API Error: boom" ≠ "boom" :=
  ⟨rfl, by decide⟩

/-- Claim C2, amended: on a payload whose `success` flag is false both
operations fail with `ValueError` (the spec's `ApiError`) whose message
embeds the server-supplied error string after a fixed prefix —
`get_directory` raises `"API Error: <error>"` with placeholder
`"Unknown error"` when the field is absent, and `get_file_content` raises
`"Failed to get file content: <error>"`, rendering an absent field as
`"None"`. -/
theorem api_error_message_embeds_server_error (b path : String) (err : Option String)
    (items : List ItemData) (content : String) :
    (get_directory b true path (fun _ => ⟨200, ⟨some false, err, items⟩⟩)).2
      = .error (.valueError ("API Error: " ++ err.getD "Unknown error"))
    ∧ (get_file_content b true path (fun _ => ⟨200, ⟨some false, err, content⟩⟩)).2
      = .error (.valueError ("Failed to get file content: " ++ pyStrOpt err)) :=
  ⟨rfl, rfl⟩

/-- Claim C3: with the session not opened, both operations fail with
`RuntimeError` (the spec's `StateError`) and issue no request: the request
list is empty. -/
theorem state_error_before_session_open (b path : String)
    (rd : Request → DirResponse) (rc : Request → ContentResponse) :
    get_directory b false path rd
      = ([], .error (.runtimeError "Session not initialized. Use async context manager."))
    ∧ get_file_content b false path rc
      = ([], .error (.runtimeError "Session not initialized")) :=
  ⟨rfl, rfl⟩

/-- Claim C4: normalizing `"2024-01-01T00:00:00Z"` yields the very string
`"2024-01-01T00:00:00+00:00"`, so any ISO-8601 parser maps the two to the
same instant; and in general normalizing a string ending in `Z` produces a
string ending in the explicit UTC offset `"+00:00"`. -/
theorem modified_z_normalization :
    normalizeModified "2024-01-01T00:00:00Z" = "2024-01-01T00:00:00+00:00"
    ∧ (∀ (α : Type) (fromisoformat : String → α),
        fromisoformat (normalizeModified "2024-01-01T00:00:00Z")
          = fromisoformat "2024-01-01T00:00:00+00:00")
    ∧ ∀ t : String, normalizeModified (t ++ "Z") = normalizeModified t ++ "+00:00" := by
  refine ⟨rfl, fun α f => rfl, fun t => ?_⟩
  apply String.ext
  simp [normalizeModified, String.data_append, replaceCharList_append_single]

/-- Claim C5: an open-session `get_directory` call issues exactly one
request, whose query parameters are empty when `path` is the empty string
and carry `path` when it is non-empty. -/
theorem directory_query_params (b path : String) (rd : Request → DirResponse) :
    (get_directory b true path rd).1
      = [⟨b ++ "/directory", if path = "" then [] else [("path", path)]⟩] :=
  rfl

/-- Claim C6: a successful `get_directory` returns one `FileItem` per
payload item, pointwise in the server's order (no re-sort), each produced by
`parseItem` from the corresponding item, with absent `size`, `extension` and
`modified` payload fields mapping to absent optional fields. -/
theorem listDirectory_preserves_order (b path : String) (r : DirResponse) (l : List FileItem)
    (h : (get_directory b true path (fun _ => r)).2 = .ok l) :
    l.length = r.payload.items.length ∧
    List.Forall₂ (fun it fi => parseItem it = .ok fi ∧ fi.size = it.size ∧
      fi.extension = it.extension ∧ (it.modified = none → fi.modified = none))
      r.payload.items l := by
  have hp := parseItems_forall₂ (get_directory_ok h)
  refine ⟨hp.length_eq.symm, List.Forall₂.imp ?_ hp⟩
  intro it fi hok
  obtain ⟨hs, he, hm⟩ := parseItem_ok_fields hok
  refine ⟨hok, hs, he, fun hmn => ?_⟩
  rw [hm, hmn]

/-- Witness for C6 at a concrete one-item payload. -/
theorem listDirectory_preserves_order_witness :
    ([⟨"a", "/a", FileType.file, some 1, none, some "md"⟩] : List FileItem).length
      = ([⟨some "a", some "/a", some "file", some 1, none, some "md"⟩] : List ItemData).length
    ∧ List.Forall₂ (fun it fi => parseItem it = .ok fi ∧ fi.size = it.size ∧
        fi.extension = it.extension ∧ (it.modified = none → fi.modified = none))
        [⟨some "a", some "/a", some "file", some 1, none, some "md"⟩]
        [⟨"a", "/a", FileType.file, some 1, none, some "md"⟩] :=
  listDirectory_preserves_order "http://localhost:3001/api" ""
    ⟨200, ⟨some true, none, [⟨some "a", some "/a", some "file", some 1, none, some "md"⟩]⟩⟩
    [⟨"a", "/a", FileType.file, some 1, none, some "md"⟩] rfl

/-- Claim C7: the size-formatting helper applied to 2048 returns
`"2.0 KB"` (2048 is far below the float-overflow threshold and divides once
to exactly 2.0, so the computation is bit-exact to CPython). -/
theorem format_file_size_2048 : format_file_size 2048 = .ok "2.0 KB" := by
  norm_num [format_file_size, sizeLoop, fmt1, pyRound1, sizes, floatOverflowBound]
  rfl

/-- Claim C8: when some payload item lacks the `name`, `path` or `type`
key, or its `type` string is neither `"file"` nor `"directory"`,
`get_directory` on an open session raises (a `KeyError` or `ValueError`)
and returns no list. -/
theorem malformed_item_raises (b path : String) (r : DirResponse) (it : ItemData)
    (hmem : it ∈ r.payload.items)
    (hbad : it.name = none ∨ it.path = none ∨ it.type = none ∨
      ∀ s, it.type = some s → s ≠ "file" ∧ s ≠ "directory") :
    ∃ e, (get_directory b true path (fun _ => r)).2 = .error e := by
  cases hres : (get_directory b true path (fun _ => r)).2 with
  | error e => exact ⟨e, rfl⟩
  | ok l =>
    exfalso
    obtain ⟨fi, hok⟩ :=
      forall₂_mem_left (parseItems_forall₂ (get_directory_ok hres)) it hmem
    exact parseItem_bad hbad fi hok

/-- Witness for C8 at a concrete payload whose single item has the unknown
type string `"symlink"`. -/
theorem malformed_item_raises_witness :
    ∃ e, (get_directory "http://localhost:3001/api" true "" (fun _ => ⟨200, ⟨some true, none,
      [⟨some "x", some "/x", some "symlink", none, none, none⟩]⟩⟩)).2 = .error e :=
  malformed_item_raises "http://localhost:3001/api" ""
    ⟨200, ⟨some true, none, [⟨some "x", some "/x", some "symlink", none, none, none⟩]⟩⟩
    ⟨some "x", some "/x", some "symlink", none, none, none⟩
    (by simp)
    (Or.inr (Or.inr (Or.inr (fun s hs => by cases hs; exact ⟨by decide, by decide⟩))))

/-- Claim C9: a payload lacking the `success` key behaves exactly like a
payload with an explicit `success: false` — for any status the two calls
are equal — and with status 200 both operations fail with the same
`ValueError` (the spec's `ApiError`) as in the explicit case. -/
theorem missing_success_treated_as_failure (b path : String) (status : Nat)
    (err : Option String) (items : List ItemData) (content : String) :
    get_directory b true path (fun _ => ⟨status, ⟨none, err, items⟩⟩)
      = get_directory b true path (fun _ => ⟨status, ⟨some false, err, items⟩⟩)
    ∧ get_file_content b true path (fun _ => ⟨status, ⟨none, err, content⟩⟩)
      = get_file_content b true path (fun _ => ⟨status, ⟨some false, err, content⟩⟩)
    ∧ (get_directory b true path (fun _ => ⟨200, ⟨none, err, items⟩⟩)).2
      = .error (.valueError ("API Error: " ++ err.getD "Unknown error"))
    ∧ (get_file_content b true path (fun _ => ⟨200, ⟨none, err, content⟩⟩)).2
      = .error (.valueError ("Failed to get file content: " ++ pyStrOpt err)) :=
  ⟨rfl, rfl, rfl, rfl⟩

/-- Claim C10, counterexample: the claim says every non-negative input
returns a unit string, arbitrarily large inputs capping at `TB`.  At
`2 ^ 1100` the division `bytes_size /= 1024.0` converts the `int` to a
float, which raises `OverflowError` in CPython: no string is returned. -/
theorem huge_input_overflows :
    format_file_size (2 ^ 1100) = .error (.overflowError "int too large to convert to float")
    ∧ ∀ s : String, format_file_size (2 ^ 1100) ≠ .ok s := by
  have h : format_file_size (2 ^ 1100)
      = .error (.overflowError "int too large to convert to float") := by
    norm_num [format_file_size, floatOverflowBound]
  exact ⟨h, fun s hs => by rw [h] at hs; cases hs⟩

/-- Claim C10, amended: `format_file_size 0` is exactly `"0 B"`; for every
input below the int-to-float overflow threshold `2 ^ 1024 - 2 ^ 970` the
returned string ends in one of the five units `B`, `KB`, `MB`, `GB`, `TB`
(the unit index never exceeds the list bound); and every input at or above
the threshold that reaches the division (`bytes_size >= 1024`) raises
`OverflowError` instead of returning a string. -/
theorem format_file_size_unit_within_float_range :
    format_file_size 0 = .ok "0 B"
    ∧ (∀ n : Nat, n < floatOverflowBound →
        ∃ u, u ∈ sizes ∧ ∃ p, format_file_size n = .ok (p ++ " " ++ u))
    ∧ ∀ n : Nat, 1024 ≤ n → floatOverflowBound ≤ n →
        format_file_size n = .error (.overflowError "int too large to convert to float") := by
  refine ⟨rfl, fun n hn => ?_, fun n h1 h2 => ?_⟩
  · by_cases h0 : n = 0
    · exact ⟨"B", by simp [sizes], "0", by rw [h0]; rfl⟩
    · have hov : ¬(1024 ≤ n ∧ floatOverflowBound ≤ n) := fun h => absurd h.2 (not_le.mpr hn)
      refine ⟨sizes.getD (sizeLoop 4 (n : ℚ) 0).2 "",
        getD_sizes_mem (sizeLoop_snd_le 4 _ 0 (by norm_num)),
        fmt1 (sizeLoop 4 (n : ℚ) 0).1, ?_⟩
      simp [format_file_size, h0, hov]
  · have h0 : n ≠ 0 := by omega
    simp [format_file_size, h0, h1, h2]

set_option maxRecDepth 8192 in
/-- Witness for the amended C10 theorem: 2048 is below the overflow
threshold and yields a unit string, while `2 ^ 1030` is at or above it and
raises. -/
theorem format_file_size_unit_within_float_range_witness :
    (∃ u, u ∈ sizes ∧ ∃ p, format_file_size 2048 = .ok (p ++ " " ++ u))
    ∧ format_file_size (2 ^ 1030) = .error (.overflowError "int too large to convert to float") :=
  ⟨format_file_size_unit_within_float_range.2.1 2048 (by decide),
   format_file_size_unit_within_float_range.2.2 (2 ^ 1030) (by decide) (by decide)⟩

end ProjectDuck
